import Mathlib

/-!
Shallow embedding of the hh-bot automation pipeline (Python sources under
`hh_bot/`), together with theorems settling the specification claims about it.

Conventions of the embedding:
* Python strings are Lean `String`s; case-insensitive regex/substring tests
  are modelled by explicitly lowercasing both sides (`pyToLower` covers the
  ASCII and Cyrillic ranges actually used by the program's pattern lists).
* Python floats are modelled as exact rationals (`ℚ`); no claim here depends
  on IEEE rounding.
* Effectful collaborators (the Selenium driver, HTTP clients, the random
  generator, the clock) are passed in as explicit oracle arguments; a Python
  call that may raise is modelled as `Except String α`, the `.error` case
  carrying `str(exception)`.
* Dataclasses keep their Python field names.  Note that the dataclass
  `ApplicationResult` (models/vacancy.py) declares the fields
  `vacancy_id, vacancy_name, success, already_applied, error_message,
  timestamp` and nothing else; in particular it has NO `skipped` field even
  though browser_service.py passes `skipped=True` to its constructor and
  job_application_manager.py reads `result.skipped`.  Those accesses raise
  (TypeError resp. AttributeError) and are modelled as such below.  The
  `timestamp` field is set from the wall clock in `__post_init__` and never
  read by the pipeline, so it is omitted from the Lean structure.
-/

namespace HHBot

/-! ## String machinery: Python `str.lower`, `in`, and `re.search` with `\b` -/

/-- Python `str.lower()` restricted to the character ranges the program's
pattern lists use: ASCII letters and the Cyrillic block (А..Я → а..я, Ё → ё). -/
def pyToLower (c : Char) : Char :=
  if c.toNat = 0x401 then Char.ofNat 0x451
  else if 0x410 ≤ c.toNat ∧ c.toNat ≤ 0x42F then Char.ofNat (c.toNat + 0x20)
  else c.toLower

/-- Lowercased character list of a string (model of `s.lower()`). -/
def lowerStr (s : String) : List Char :=
  s.data.map pyToLower

/-- Python regex `\w` (re.UNICODE) restricted to the alphabets appearing in
the program: ASCII alphanumerics, underscore, and the Cyrillic block. -/
def pyIsWordChar (c : Char) : Bool :=
  c.isAlphanum || c == '_' || (decide (0x400 ≤ c.toNat) && decide (c.toNat ≤ 0x4FF))

/-- If `pat` is a prefix of `text`, return the rest of `text` after it. -/
def prefixRest : List Char → List Char → Option (List Char)
  | [], rest => some rest
  | _ :: _, [] => none
  | p :: ps, t :: ts => if p = t then prefixRest ps ts else none

/-- Python substring test `pat in text` (naive scan). -/
def containsSub (pat : List Char) : List Char → Bool
  | [] => (prefixRest pat []).isSome
  | t :: ts => (prefixRest pat (t :: ts)).isSome || containsSub pat ts

/-- Does `pat` match at the head of `text`, with a word boundary after it? -/
def wbMatchHere (pat text : List Char) : Bool :=
  match prefixRest pat text with
  | some [] => true
  | some (c :: _) => !(pyIsWordChar c)
  | none => false

/-- Is the position after `prev` a left word boundary (for a pattern that
starts with a word character)? -/
def boundaryOk : Option Char → Bool
  | none => true
  | some c => !(pyIsWordChar c)

/-- Scan of `re.search(r"\b<pat>\b", text)` for a pattern made of word
characters: some position has a boundary on the left, the pattern, and a
boundary on the right. `prev` is the character before the current position. -/
def wbSearchAux (pat : List Char) : Option Char → List Char → Bool
  | prev, [] => boundaryOk prev && wbMatchHere pat []
  | prev, t :: ts => (boundaryOk prev && wbMatchHere pat (t :: ts)) || wbSearchAux pat (some t) ts

/-- Model of `re.search(r"\b<pat>\b", text, re.IGNORECASE)` on lowercased input. -/
def wbSearch (pat text : List Char) : Bool :=
  wbSearchAux pat none text

/-! ## Data model (models/vacancy.py) -/

/-- Employer dataclass (presentation-only optional URL fields omitted:
nothing in the pipeline reads them). -/
structure Employer where
  id : String
  name : String
  trusted : Bool := false
deriving Repr, DecidableEq

/-- Experience dataclass. -/
structure Experience where
  id : String
  name : String
deriving Repr, DecidableEq

/-- Snippet dataclass. -/
structure Snippet where
  requirement : Option String := none
  responsibility : Option String := none
deriving Repr, DecidableEq

/-- Salary dataclass. -/
structure Salary where
  from_value : Option Int := none
  to_value : Option Int := none
  currency : String := "RUR"
  gross : Bool := false
deriving Repr, DecidableEq

/-- Vacancy dataclass. `ai_match_score` is a Python float, modelled as `ℚ`. -/
structure Vacancy where
  id : String
  name : String
  alternate_url : String
  employer : Employer
  experience : Experience
  snippet : Snippet
  premium : Bool := false
  has_test : Bool := false
  response_letter_required : Bool := false
  archived : Bool := false
  apply_alternate_url : Option String := none
  ai_match_score : Option ℚ := none
  ai_match_reasons : List String := []
  salary : Option Salary := none
deriving Repr, DecidableEq

/-- Pattern list of `Vacancy.has_python`. -/
def pythonPatterns : List String :=
  ["python", "пайтон", "джанго", "flask", "fastapi", "pandas", "numpy"]

/-- `Vacancy.has_python`: any of the patterns matches (case-insensitively, at
word boundaries) in name + requirement + responsibility. -/
def has_python (v : Vacancy) : Bool :=
  let text_to_check :=
    v.name ++ " " ++ (v.snippet.requirement.getD "") ++ " " ++ (v.snippet.responsibility.getD "")
  pythonPatterns.any (fun p => wbSearch (lowerStr p) (lowerStr text_to_check))

/-- Keyword list of `Vacancy.is_junior_level`. -/
def juniorKeywords : List String :=
  ["junior", "джуниор", "стажер", "стажёр", "начинающий", "intern", "trainee", "entry", "младший"]

/-- `Vacancy.is_junior_level`: plain case-insensitive substring test over
name + requirement. -/
def is_junior_level (v : Vacancy) : Bool :=
  let text_to_check := v.name ++ " " ++ (v.snippet.requirement.getD "")
  juniorKeywords.any (fun k => containsSub (lowerStr k) (lowerStr text_to_check))

/-- `Vacancy.get_full_text`: `" ".join(filter(None, parts))` — empty parts are
dropped before joining. -/
def get_full_text (v : Vacancy) : String :=
  String.intercalate " "
    (([v.name, v.employer.name, v.snippet.requirement.getD "",
       v.snippet.responsibility.getD "", v.experience.name]).filter (fun s => s != ""))

/-- ApplicationResult dataclass. As in the source, there is no `skipped`
field; the impure `timestamp` field (wall clock, never read) is omitted. -/
structure ApplicationResult where
  vacancy_id : String
  vacancy_name : String
  success : Bool
  already_applied : Bool := false
  error_message : Option String := none
deriving Repr, DecidableEq

/-! ## Rule/AI scoring fallback (services/gemini_service.py) -/

/-- `VacancyAnalyzer._basic_analysis`: deterministic fallback scoring.  Each
Python `score += x; reasons.append(r)` statement pair is rendered as a pair
of `let`s over the same condition.  The surrounding `try` can never fire:
the body only performs pure attribute reads and arithmetic. -/
def basic_analysis (v : Vacancy) : ℚ × List String :=
  if !(has_python v) then (0.1, ["Не содержит Python в требованиях"])
  else
    let score1 : ℚ := 0 + 0.4
    let reasons1 : List String := ["Содержит Python в требованиях"]
    let score2 : ℚ :=
      if is_junior_level v then score1 + 0.3
      else if ["noExperience", "between1And3"].contains v.experience.id then score1 + 0.2
      else score1
    let reasons2 : List String :=
      if is_junior_level v then reasons1 ++ ["Подходящий уровень (junior)"]
      else if ["noExperience", "between1And3"].contains v.experience.id then
        reasons1 ++ ["Приемлемый опыт работы"]
      else reasons1
    let score3 : ℚ := if !v.has_test then score2 + 0.1 else score2
    let reasons3 : List String :=
      if !v.has_test then reasons2 ++ ["Без обязательного тестирования"]
      else reasons2 ++ ["Есть обязательное тестирование"]
    let score4 : ℚ := if !v.archived then score3 + 0.1 else score3
    let reasons4 : List String :=
      if !v.archived then reasons3 ++ ["Актуальная вакансия"] else reasons3
    (min score4 1, reasons4)

/-- `VacancyAnalyzer._validate_score`: clamp into [MIN_AI_SCORE, MAX_AI_SCORE]. -/
def validate_score (score : ℚ) : ℚ :=
  max 0 (min 1 score)

/-- `GeminiAIService.analyze_vacancy_match`.  `api_key` is the configured key
(`is_available()` is `bool(api_key)`); the AI collaborator is an oracle:
`some (score, reasons)` for a well-formed response carrying `match_score`,
`none` for every failure (network error, malformed response), which falls
back to `_basic_analysis`. -/
def analyze_vacancy_match (api_key : String) (oracle : Option (ℚ × List String))
    (v : Vacancy) : ℚ × List String :=
  if api_key = "" then basic_analysis v
  else
    match oracle with
    | some (score, reasons) => (validate_score score, reasons)
    | none => basic_analysis v

/-- `GeminiAIService.should_apply`: score against the configured threshold;
with no API key the decision comes from `_basic_analysis` alone. -/
def gemini_should_apply (api_key : String) (threshold : ℚ)
    (oracle : Option (ℚ × List String)) (v : Vacancy) : Bool :=
  if api_key = "" then decide (threshold ≤ (basic_analysis v).1)
  else decide (threshold ≤ (analyze_vacancy_match api_key oracle v).1)

/-! ## Session store (services/browser_service.py, SessionManager) -/

/-- Parsed contents of the session record file.  `session_data.get("timestamp", 0)`
is modelled by an optional timestamp defaulting to 0; the cookie entries are
opaque to validity checking. -/
structure SessionData where
  cookies : List String := []
  user_agent : String := ""
  timestamp : Option ℚ := none
deriving Repr, DecidableEq

/-- `max_age = 7 * 24 * 3600` seconds in `SessionManager._is_session_valid`. -/
def max_session_age : ℚ := 7 * 24 * 3600

/-- `SessionManager._is_session_valid`: age strictly below the window.  The
internal `try` cannot fire (`.get` with a default and float arithmetic do not
raise), so the `except: return False` arm is dead. -/
def is_session_valid (now : ℚ) (d : SessionData) : Bool :=
  decide (now - d.timestamp.getD 0 < max_session_age)

/-- `SessionManager.load_session`.  `file_exists` models `cookies_file.exists()`;
`parsed` is `none` when `json.load` raises (any parse failure, caught by the
blanket handler, which returns False); `nav_ok` models the `driver.get` /
`time.sleep` calls after validation succeeding (their exceptions are caught
by the same handler; individual `add_cookie` failures are swallowed). -/
def load_session (file_exists : Bool) (parsed : Option SessionData) (now : ℚ)
    (nav_ok : Bool) : Bool :=
  if !file_exists then false
  else
    match parsed with
    | none => false
    | some d => if !(is_session_valid now d) then false else nav_ok

/-! ## Vacancy applicator (services/browser_service.py, VacancyApplicator) -/

/-- SubmissionResult enum. -/
inductive SubmissionResult where
  | SUCCESS
  | FAILED
  | SKIPPED
deriving Repr, DecidableEq

/-- ALREADY_APPLIED_INDICATORS list. -/
def alreadyAppliedIndicators : List String :=
  ["откликнулись", "отклик отправлен", "заявка отправлена", "response sent",
   "уже откликнулись", "чат"]

/-- `VacancyApplicator._is_already_applied` over the lowercased button text. -/
def is_already_applied (button_text : List Char) : Bool :=
  alreadyAppliedIndicators.any (fun indicator => containsSub indicator.data button_text)

/-- Observable state of the vacancy page, as probed by the applicator:
the text of the first matching apply control (none if no selector matches),
whether a modal overlay appears within the bounded wait, whether a response
form is found inside it, and the submit-click outcome (`none`: no clickable
submit control; `some b`: clicked, with `b` the result of the composite
success check). -/
structure VacancyPage where
  apply_button : Option String
  modal_found : Bool
  form_found : Bool
  submit_click : Option Bool
deriving Repr, DecidableEq

/-- `VacancyApplicator._submit_application_form`. -/
def submit_application_form (p : VacancyPage) : SubmissionResult :=
  if !p.modal_found then SubmissionResult.SKIPPED
  else if !p.form_found then SubmissionResult.SKIPPED
  else
    match p.submit_click with
    | some true => SubmissionResult.SUCCESS
    | some false => SubmissionResult.FAILED
    | none => SubmissionResult.FAILED

/-- str() of the TypeError raised when the SKIPPED arm of
`VacancyApplicator.apply_to_vacancy` calls
`ApplicationResult(..., skipped=True, ...)`: the dataclass declares no
`skipped` field, so the constructor rejects the keyword argument. -/
def skippedKwTypeError : String :=
  "TypeError: ApplicationResult got an unexpected keyword argument skipped"

/-- `VacancyApplicator.apply_to_vacancy`.  The SKIPPED arm tries to build an
ApplicationResult with `skipped=True`; that raises TypeError inside the
method's own `try`, and the blanket `except` turns it into a generic failed
result whose message is the exception text. -/
def applicator_apply_to_vacancy (p : VacancyPage) (vacancy_name : String) :
    ApplicationResult :=
  match p.apply_button with
  | none =>
      { vacancy_id := "", vacancy_name := vacancy_name, success := false,
        error_message := some "Кнопка отклика не найдена" }
  | some btext =>
      if is_already_applied (lowerStr btext) then
        { vacancy_id := "", vacancy_name := vacancy_name, success := false,
          already_applied := true,
          error_message := some "Уже откликались на эту вакансию" }
      else
        match submit_application_form p with
        | SubmissionResult.SUCCESS =>
            { vacancy_id := "", vacancy_name := vacancy_name, success := true }
        | SubmissionResult.SKIPPED =>
            { vacancy_id := "", vacancy_name := vacancy_name, success := false,
              error_message := some skippedKwTypeError }
        | SubmissionResult.FAILED =>
            { vacancy_id := "", vacancy_name := vacancy_name, success := false,
              error_message := some "Ошибка отправки в модальном окне" }

/-! ## Browser service facade (services/browser_service.py, BrowserService) -/

/-- Readiness-relevant state of BrowserService: `driver is not None`,
`_is_authenticated`, `applicator is not None`. -/
structure BrowserState where
  driver_present : Bool
  is_authenticated : Bool
  applicator_present : Bool
deriving Repr, DecidableEq

/-- `BrowserService.is_ready`. -/
def is_ready (s : BrowserState) : Bool :=
  s.driver_present && s.is_authenticated && s.applicator_present

/-- `BrowserService.apply_to_vacancy`: guard on `is_ready`, otherwise delegate
to the applicator, whose behaviour is abstracted by its result. -/
def browser_apply_to_vacancy (s : BrowserState) (applicator_result : ApplicationResult)
    (vacancy_name : String) : ApplicationResult :=
  if !(is_ready s) then
    { vacancy_id := "", vacancy_name := vacancy_name, success := false,
      error_message := some "Браузер не готов или нет авторизации" }
  else applicator_result

/-- Fixed fallback delay in `BrowserService.add_random_pause` (`time.sleep(3)`). -/
def defaultFallbackPause : ℚ := 3

/-- `BrowserService.add_random_pause`: the slept duration.
`random.uniform(a, b) = a + (b - a) * u` with the generator draw `u ∈ [0, 1]`;
`fails` models any exception while computing or performing the pause, in
which case the `except` arm sleeps the fixed default instead. -/
def add_random_pause (pause_min pause_max u : ℚ) (fails : Bool) : ℚ :=
  if fails then defaultFallbackPause
  else pause_min + (pause_max - pause_min) * u

/-! ## Submission loop (core/job_application_manager.py) -/

/-- The failed result built in the `except` arm of
`AutomationOrchestrator._apply_to_vacancies`. -/
def errorResult (v : Vacancy) (e : String) : ApplicationResult :=
  { vacancy_id := "", vacancy_name := v.name, success := false,
    error_message := some e }

/-- str() of the AttributeError raised when `_log_application_result`
evaluates `result.skipped` (reached for every result with
`success = false` and `already_applied = false`): the ApplicationResult
dataclass has no `skipped` attribute. -/
def skippedAttrError : String :=
  "AttributeError: ApplicationResult object has no attribute skipped"

/-- `AutomationOrchestrator._apply_to_vacancies`, results accumulator.
`f` is the call `self.browser_service.apply_to_vacancy(vacancy)` — an
effectful collaborator modelled as an oracle that either raises or returns a
result.  (As written, that call passes one positional argument to a
two-parameter method, so in the program it always raises TypeError; the
`.error` case of the oracle covers this.)  Control flow per iteration:
break once the success count reaches the cap; on a raised exception append
`errorResult`; on a returned result append it, then `_log_application_result`
raises AttributeError for plain-failed results (see `skippedAttrError`),
which the same `except` arm converts into a second, appended `errorResult`;
the success counter grows only on `result.success`.  The inter-iteration
pause has no effect on the results. -/
def applyLoop (cap : Nat) (f : Vacancy → Except String ApplicationResult) :
    List Vacancy → Nat → List ApplicationResult
  | [], _ => []
  | v :: rest, successful_count =>
    if cap ≤ successful_count then []
    else
      match f v with
      | Except.error e => errorResult v e :: applyLoop cap f rest successful_count
      | Except.ok r =>
        if r.success then r :: applyLoop cap f rest (successful_count + 1)
        else if r.already_applied then r :: applyLoop cap f rest successful_count
        else r :: errorResult v skippedAttrError :: applyLoop cap f rest successful_count

/-- Number of outcomes with `success = true`. -/
def countSuccess (rs : List ApplicationResult) : Nat :=
  rs.countP (fun r => r.success)

/-! ## Statistics and pipeline (core/job_application_manager.py) -/

/-- The statistics record built by `AutomationOrchestrator._create_stats`
(Python ints; `failed` is computed by subtraction and may in principle be
negative, hence `Int`). -/
structure PipelineStats where
  total_applications : Int
  successful : Int
  failed : Int
  already_applied : Int
  skipped : Int
deriving Repr, DecidableEq

/-- Reading the `skipped` attribute of an ApplicationResult: the dataclass
declares no such field, so this always raises AttributeError. -/
def getSkipped (_ : ApplicationResult) : Except String Bool :=
  Except.error skippedAttrError

/-- `sum(1 for r in application_results if r.skipped)`: the generator reads
`r.skipped` on each element in order, so it raises at the first element. -/
def sumSkipped : List ApplicationResult → Except String Nat
  | [] => Except.ok 0
  | r :: rs => do
      let b ← getSkipped r
      let n ← sumSkipped rs
      pure (if b then n + 1 else n)

/-- `AutomationOrchestrator._create_stats`.  The counts are computed in source
order; evaluating the `skipped` count raises on any non-empty list, and that
exception propagates to the pipeline's blanket handler. -/
def create_stats (application_results : List ApplicationResult) :
    Except String PipelineStats := do
  let total_applications := application_results.length
  let successful := countSuccess application_results
  let already_applied := application_results.countP (fun r => r.already_applied)
  let skipped ← sumSkipped application_results
  let failed : Int :=
    (total_applications : Int) - successful - already_applied - skipped
  pure { total_applications := total_applications, successful := successful,
         failed := failed, already_applied := already_applied, skipped := skipped }

/-- Result surface of `execute_automation_pipeline`: a statistics record or a
dict with a single error field. -/
inductive PipelineResult where
  | stats (s : PipelineStats)
  | error (msg : String)
deriving Repr, DecidableEq

/-- `AutomationOrchestrator.execute_automation_pipeline`.  `filtered` is the
output of `_search_and_filter_vacancies`; `use_ai`/`ai_available` select the
AI re-filter whose output is `ai_filtered`; `init_ok` is the result of
`_initialize_browser_and_auth`; `f` is the per-vacancy browser call as in
`applyLoop`.  A raised exception from `_create_stats` is caught by the
method's blanket `except Exception` and returned as the error dict. -/
def execute_automation_pipeline (cap : Nat) (filtered : List Vacancy)
    (use_ai ai_available : Bool) (ai_filtered : List Vacancy) (init_ok : Bool)
    (f : Vacancy → Except String ApplicationResult) : PipelineResult :=
  if filtered.isEmpty then PipelineResult.error "Подходящие вакансии не найдены"
  else if use_ai && ai_available && ai_filtered.isEmpty then
    PipelineResult.error "После AI фильтрации подходящих вакансий нет"
  else if !init_ok then
    PipelineResult.error "Ошибка инициализации браузера или авторизации"
  else
    let vacancies := if use_ai && ai_available then ai_filtered else filtered
    match create_stats (applyLoop cap f vacancies 0) with
    | Except.ok s => PipelineResult.stats s
    | Except.error e => PipelineResult.error e

/-! ## Rule filter stage (services/hh_api_service.py) -/

/-- EXCLUDE_KEYWORDS list of VacancyFilter. -/
def excludeKeywords : List String :=
  ["senior", "lead", "старший", "ведущий", "главный", "team lead", "tech lead",
   "архитектор", "head", "руководитель", "manager", "director"]

/-- `VacancyFilter._is_suitable_basic`: requires the Python-skill pattern,
rejects on any exclude keyword (case-insensitive substring of the full text)
and on archived vacancies.  It takes no keyword argument: the supplied search
keyword plays no role here. -/
def is_suitable_basic (v : Vacancy) : Bool :=
  if !(has_python v) then false
  else if excludeKeywords.any (fun kw => containsSub (lowerStr kw) (lowerStr (get_full_text v))) then
    false
  else if v.archived then false
  else true

/-- `VacancyFilter.filter_suitable`. -/
def filter_suitable (vacancies : List Vacancy) : List Vacancy :=
  vacancies.filter is_suitable_basic

/-- `HHApiService.filter_suitable_vacancies(vacancies, use_basic_filter=True)`. -/
def filter_suitable_vacancies (vacancies : List Vacancy)
    (use_basic_filter : Bool := true) : List Vacancy :=
  if !use_basic_filter then vacancies
  else filter_suitable vacancies

/-- The call written in `AutomationOrchestrator._search_and_filter_vacancies`:
`filter_suitable_vacancies(all_vacancies, search_keywords=keywords or "")`.
The method's signature is `(vacancies, use_basic_filter=True)`; it has no
`search_keywords` parameter, so Python raises TypeError before the body runs. -/
def call_filter_with_search_keywords (_vacancies : List Vacancy) (_keywords : String) :
    Except String (List Vacancy) :=
  Except.error
    "TypeError: filter_suitable_vacancies got an unexpected keyword argument search_keywords"

/-- `AutomationOrchestrator._search_and_filter_vacancies`: `search_result` is
the list returned by the search collaborator; the body's `try` catches the
TypeError from the filter call and returns the empty list. -/
def search_and_filter_vacancies (search_result : List Vacancy)
    (keywords : Option String) : List Vacancy :=
  if search_result.isEmpty then []
  else
    match call_filter_with_search_keywords search_result (keywords.getD "") with
    | Except.ok suitable => suitable
    | Except.error _ => []

/-! ## Concrete fixtures used by the witness and evaluation theorems -/

/-- A vacancy whose text contains none of the Python-skill patterns. -/
def vacNoPy : Vacancy :=
  { id := "np1"
    name := "go developer"
    alternate_url := ""
    employer := { id := "e1", name := "Acme" }
    experience := { id := "noExperience", name := "Без опыта" }
    snippet := {} }

/-- A vacancy whose title and requirement match the search keyword "java"
case-insensitively but contain no Python-skill pattern. -/
def vacJavaKw : Vacancy :=
  { id := "j1"
    name := "Java Developer"
    alternate_url := ""
    employer := { id := "e2", name := "Acme" }
    experience := { id := "noExperience", name := "Без опыта" }
    snippet := { requirement := some "junior java" } }

/-- A session record created at epoch 0. -/
def d8 : SessionData := { timestamp := some 0 }

/-- A sample applicator result (submission confirmed). -/
def sampleOkResult : ApplicationResult :=
  { vacancy_id := "42", vacancy_name := "Python Dev", success := true }

/-- A sample applicator result (submission failed). -/
def sampleFailResult : ApplicationResult :=
  { vacancy_id := "43", vacancy_name := "Python Dev", success := false }

/-- A browser-call oracle for which every submission succeeds. -/
def fwOk : Vacancy → Except String ApplicationResult :=
  fun v => Except.ok { vacancy_id := v.id, vacancy_name := v.name, success := true }

/-- str() of the TypeError the program actually raises at
`self.browser_service.apply_to_vacancy(vacancy)`: the method takes
`(vacancy_url, vacancy_name)` but receives a single positional argument. -/
def arityTypeError : String :=
  "TypeError: apply_to_vacancy missing 1 required positional argument vacancy_name"

/-- A browser-call oracle that always raises (as the program's call does). -/
def fwRaise : Vacancy → Except String ApplicationResult :=
  fun _ => Except.error arityTypeError

/-- A page where the apply control is found (with neutral text), but no modal
overlay appears within the bounded wait. -/
def noModalPage : VacancyPage :=
  { apply_button := some "Откликнуться", modal_found := false, form_found := false,
    submit_click := none }

/-! ## Theorems -/

/-- Helper: the running invariant of the submission loop.  Starting from
`s` already-recorded successes, the loop adds at most `cap - s` more. -/
theorem countSuccess_applyLoop_le (cap : Nat) (f : Vacancy → Except String ApplicationResult)
    (vs : List Vacancy) :
    ∀ s, countSuccess (applyLoop cap f vs s) + s ≤ max cap s := by
  induction vs with
  | nil => intro s; simp [applyLoop, countSuccess]
  | cons v rest ih =>
    intro s
    by_cases hcap : cap ≤ s
    · simp [applyLoop, hcap, countSuccess]
    · have hmax : max cap s = cap := by omega
      have hmax1 : max cap (s + 1) = cap := by omega
      rw [hmax]
      cases hfv : f v with
      | error e =>
        have hih := ih s
        rw [hmax] at hih
        simp [applyLoop, hcap, hfv, countSuccess, List.countP_cons, errorResult] at hih ⊢
        omega
      | ok r =>
        by_cases hsucc : r.success
        · have hih := ih (s + 1)
          rw [hmax1] at hih
          simp [applyLoop, hcap, hfv, hsucc, countSuccess, List.countP_cons] at hih ⊢
          omega
        · by_cases halr : r.already_applied
          · have hih := ih s
            rw [hmax] at hih
            simp [applyLoop, hcap, hfv, hsucc, halr, countSuccess, List.countP_cons] at hih ⊢
            omega
          · have hih := ih s
            rw [hmax] at hih
            simp [applyLoop, hcap, hfv, hsucc, halr, countSuccess, List.countP_cons,
              errorResult] at hih ⊢
            omega

/-- Claim C1: in every run of the submission loop, whatever the per-vacancy
outcomes, every prefix of the produced outcome list (i.e. the recorded
outcomes at every intermediate point, and the final list) contains at most
`cap` outcomes with `success = true`; and as soon as the success count has
reached the cap, the loop stops without processing further candidates.  Only
`success` results are counted against the cap. -/
theorem success_cap_invariant (cap : Nat) (f : Vacancy → Except String ApplicationResult)
    (vs : List Vacancy) :
    (∀ p, p <+: applyLoop cap f vs 0 → countSuccess p ≤ cap) ∧
    (∀ v rest s, cap ≤ s → applyLoop cap f (v :: rest) s = []) := by
  constructor
  · intro p hp
    have hfull : countSuccess (applyLoop cap f vs 0) + 0 ≤ max cap 0 :=
      countSuccess_applyLoop_le cap f vs 0
    obtain ⟨t, ht⟩ := hp
    have hmono : countSuccess p ≤ countSuccess (applyLoop cap f vs 0) := by
      rw [← ht]
      simp [countSuccess, List.countP_append]
    omega
  · intro v rest s h
    simp [applyLoop, h]

/-- Witness for C1: a run of three candidates with an always-succeeding
browser oracle under cap 2 records at most 2 successes, and with the counter
at the cap the loop processes nothing. -/
theorem success_cap_invariant_witness :
    countSuccess (applyLoop 2 fwOk [vacNoPy, vacNoPy, vacNoPy] 0) ≤ 2 ∧
    applyLoop 2 fwOk [vacNoPy] 2 = [] :=
  ⟨(success_cap_invariant 2 fwOk [vacNoPy, vacNoPy, vacNoPy]).1 _ (List.prefix_refl _),
   (success_cap_invariant 2 fwOk []).2 vacNoPy [] 2 (by decide)⟩

/-- Helper: `_create_stats` on any non-empty result list raises
AttributeError while counting `r.skipped`. -/
theorem create_stats_raises (r : ApplicationResult) (rs : List ApplicationResult) :
    create_stats (r :: rs) = Except.error skippedAttrError := rfl

/-- Helper: with a positive cap, the loop records at least one outcome for a
non-empty candidate list, whatever the browser call does. -/
theorem applyLoop_ne_nil (cap : Nat) (f : Vacancy → Except String ApplicationResult)
    (v : Vacancy) (rest : List Vacancy) (h : 0 < cap) :
    applyLoop cap f (v :: rest) 0 ≠ [] := by
  rw [applyLoop]
  rw [if_neg (by omega)]
  cases f v with
  | error e => simp
  | ok r =>
    by_cases hsucc : r.success
    · simp [hsucc]
    · by_cases halr : r.already_applied <;> simp [hsucc, halr]

/-- Claim C2 (refuted — code bug): a pipeline run that reaches the submission
loop with at least one candidate (non-empty filtered list, AI stage off,
browser initialization succeeded, positive cap) never returns the five-field
statistics record: `_create_stats` evaluates `r.skipped` on the non-empty
outcome list, the `ApplicationResult` dataclass has no such attribute, and
the resulting AttributeError is returned as the single error field — for any
behaviour of the per-candidate browser call. -/
theorem pipeline_error_despite_processing (cap : Nat) (v : Vacancy) (vs : List Vacancy)
    (f : Vacancy → Except String ApplicationResult) (hcap : 0 < cap) :
    execute_automation_pipeline cap (v :: vs) false false [] true f =
      PipelineResult.error skippedAttrError := by
  have hne := applyLoop_ne_nil cap f v vs hcap
  simp only [execute_automation_pipeline, List.isEmpty_cons, Bool.false_and,
    Bool.and_self, Bool.false_eq_true, if_false, Bool.not_true]
  cases happ : applyLoop cap f (v :: vs) 0 with
  | nil => exact absurd happ hne
  | cons r rs => rw [create_stats_raises]

/-- Witness for C2: a concrete run over one candidate with an
always-succeeding browser oracle ends in the AttributeError error dict. -/
theorem pipeline_error_despite_processing_witness :
    execute_automation_pipeline 3 [vacNoPy] false false [] true fwOk =
      PipelineResult.error skippedAttrError :=
  pipeline_error_despite_processing 3 vacNoPy [] fwOk (by decide)

/-- Claim C3 (refuted — code bug): on a page where the apply control is found
and invoked but no modal appears within the bounded wait, the state machine
does decide SKIPPED, yet the recorded ApplicationResult is a plain failure
(`success = false`, `already_applied = false`) whose message is the TypeError
text from the rejected `skipped=True` constructor argument — not a Skipped
outcome with a "submission surface not found" reason. -/
theorem no_modal_recorded_failed_not_skipped :
    submit_application_form noModalPage = SubmissionResult.SKIPPED ∧
    applicator_apply_to_vacancy noModalPage "Python Dev" =
      { vacancy_id := "", vacancy_name := "Python Dev", success := false,
        already_applied := false, error_message := some skippedKwTypeError } :=
  ⟨rfl, by decide⟩

/-- Claim C4 (refuted — code bug): a candidate whose title+requirement text
matches the supplied keyword "java" case-insensitively is nevertheless
rejected by the rule filter (`_is_suitable_basic` ignores keywords and
unconditionally requires the Python-skill pattern), and the search stage as
written returns the empty list because its call passes `search_keywords` to a
method without that parameter. -/
theorem keyword_match_not_used_by_filter :
    containsSub (lowerStr "java")
      (lowerStr (vacJavaKw.name ++ " " ++ (vacJavaKw.snippet.requirement.getD ""))) = true ∧
    is_suitable_basic vacJavaKw = false ∧
    search_and_filter_vacancies [vacJavaKw] (some "java") = [] :=
  ⟨by decide, by decide, rfl⟩

/-- Claim C5: the deterministic fallback score is 0.1 with the
missing-required-skill reason when the candidate text lacks the Python-skill
pattern; otherwise it is 0.4 plus 0.3 for junior level (or 0.2 for an
acceptable experience level), plus 0.1 if no test is required, plus 0.1 if
not archived, clipped to [0, 1]; and the reasons list is never empty. -/
theorem basic_analysis_matches_spec (v : Vacancy) :
    (has_python v = false →
      basic_analysis v = (0.1, ["Не содержит Python в требованиях"])) ∧
    (has_python v = true →
      (basic_analysis v).1 =
        min ((0.4 : ℚ)
          + (if is_junior_level v then 0.3
             else if ["noExperience", "between1And3"].contains v.experience.id then 0.2 else 0)
          + (if v.has_test then 0 else 0.1)
          + (if v.archived then 0 else 0.1)) 1) ∧
    0 ≤ (basic_analysis v).1 ∧ (basic_analysis v).1 ≤ 1 ∧ (basic_analysis v).2 ≠ [] := by
  refine ⟨fun h => ?_, fun h => ?_, ?_, ?_, ?_⟩
  · simp [basic_analysis, h]
  · simp only [basic_analysis, h, Bool.not_true, Bool.false_eq_true, if_false]
    split_ifs <;> simp_all
  · unfold basic_analysis
    split_ifs <;> norm_num
  · unfold basic_analysis
    split_ifs <;> norm_num
  · unfold basic_analysis
    split_ifs <;> simp

/-- Witness for C5: a concrete candidate without the required skill pattern
gets exactly score 0.1 with the missing-skill reason. -/
theorem basic_analysis_matches_spec_witness :
    has_python vacNoPy = false ∧
    basic_analysis vacNoPy = (0.1, ["Не содержит Python в требованиях"]) :=
  ⟨by decide, (basic_analysis_matches_spec vacNoPy).1 (by decide)⟩

/-- Claim C6: `load_session` reports a stored session as valid only if the
record file exists, parses, and its age is strictly below the 7-day window;
an 8-day-old record, a record with no timestamp (on any clock past the window
length), and any parse failure are all reported as absent. -/
theorem load_session_validity (file_exists : Bool) (parsed : Option SessionData)
    (now : ℚ) (nav_ok : Bool) :
    (load_session file_exists parsed now nav_ok = true →
      file_exists = true ∧
        ∃ d, parsed = some d ∧ now - d.timestamp.getD 0 < max_session_age) ∧
    (∀ d t, parsed = some d → d.timestamp = some t → max_session_age ≤ now - t →
      load_session file_exists parsed now nav_ok = false) ∧
    (∀ d, parsed = some d → d.timestamp = none → max_session_age ≤ now →
      load_session file_exists parsed now nav_ok = false) ∧
    (parsed = none → load_session file_exists parsed now nav_ok = false) := by
  refine ⟨?_, ?_, ?_, ?_⟩
  · intro h
    cases file_exists with
    | false => simp [load_session] at h
    | true =>
      cases parsed with
      | none => simp [load_session] at h
      | some d =>
        refine ⟨rfl, d, rfl, ?_⟩
        by_contra hge
        simp [load_session, is_session_valid, hge] at h
  · intro d t hp ht hage
    subst hp
    have hnot : ¬(now - t < max_session_age) := not_lt.mpr hage
    cases file_exists with
    | false => simp [load_session]
    | true => simp [load_session, is_session_valid, ht, hnot]
  · intro d hp ht hage
    subst hp
    have hnot : ¬(now - d.timestamp.getD 0 < max_session_age) := by
      rw [ht]
      simpa using not_lt.mpr hage
    cases file_exists with
    | false => simp [load_session]
    | true => simp [load_session, is_session_valid, hnot]
  · intro hp
    subst hp
    simp [load_session]

/-- Witness for C6: a record saved at epoch 0 read 8 days (691200 s) later is
reported absent, as is an unparseable record. -/
theorem load_session_validity_witness :
    load_session true (some d8) 691200 true = false ∧
    load_session true none 691200 true = false :=
  ⟨(load_session_validity true (some d8) 691200 true).2.1 d8 0 rfl rfl
      (by norm_num [max_session_age, d8]),
   (load_session_validity true none 691200 true).2.2.2 rfl⟩

/-- Claim C7: if, below the success cap, the browser call for a candidate
raises, the loop records exactly one Failed outcome for that candidate
(success and already_applied false, message the exception text) and then
continues with the remaining candidates, with the success counter unchanged. -/
theorem loop_converts_fault_to_failed (cap : Nat)
    (f : Vacancy → Except String ApplicationResult) (v : Vacancy) (rest : List Vacancy)
    (s : Nat) (e : String) (hs : s < cap) (hf : f v = Except.error e) :
    applyLoop cap f (v :: rest) s = errorResult v e :: applyLoop cap f rest s ∧
    (errorResult v e).success = false ∧ (errorResult v e).already_applied = false ∧
    (errorResult v e).error_message = some e := by
  refine ⟨?_, rfl, rfl, rfl⟩
  simp [applyLoop, not_le.mpr hs, hf]

/-- Witness for C7: under the always-raising browser oracle (the program's
actual call), the first candidate yields a Failed outcome carrying the
exception text and the loop moves on to the second. -/
theorem loop_converts_fault_to_failed_witness :
    applyLoop 40 fwRaise [vacNoPy, vacNoPy] 0 =
      errorResult vacNoPy arityTypeError :: applyLoop 40 fwRaise [vacNoPy] 0 ∧
    (errorResult vacNoPy arityTypeError).success = false ∧
    (errorResult vacNoPy arityTypeError).already_applied = false ∧
    (errorResult vacNoPy arityTypeError).error_message = some arityTypeError :=
  loop_converts_fault_to_failed 40 fwRaise vacNoPy [vacNoPy] 0 arityTypeError
    (by decide) rfl

/-- Claim C8: with the AI capability unavailable (empty API key), the scoring
and the apply decision do not depend on the external AI collaborator at all:
any two calls on the same candidate — under arbitrarily different collaborator
behaviours — return the identical score, reasons list, and decision. -/
theorem fallback_scoring_deterministic (threshold : ℚ)
    (oracle1 oracle2 : Option (ℚ × List String)) (v : Vacancy) :
    analyze_vacancy_match "" oracle1 v = analyze_vacancy_match "" oracle2 v ∧
    gemini_should_apply "" threshold oracle1 v = gemini_should_apply "" threshold oracle2 v := by
  constructor <;> simp [analyze_vacancy_match, gemini_should_apply]

/-- Claim C9: when the uniform draw succeeds, the inter-submission pause lies
within the configured [min, max] interval; when computing or performing the
randomized pause fails, the fixed default delay is slept instead. -/
theorem pause_within_bounds (pause_min pause_max u : ℚ)
    (hrange : pause_min ≤ pause_max) (hu0 : 0 ≤ u) (hu1 : u ≤ 1) :
    (pause_min ≤ add_random_pause pause_min pause_max u false ∧
     add_random_pause pause_min pause_max u false ≤ pause_max) ∧
    (∀ fails, fails = true →
      add_random_pause pause_min pause_max u fails = defaultFallbackPause) := by
  refine ⟨⟨?_, ?_⟩, fun fails hf => by simp [add_random_pause, hf]⟩
  · simp only [add_random_pause, Bool.false_eq_true, if_false]
    nlinarith [mul_nonneg (sub_nonneg.mpr hrange) hu0]
  · simp only [add_random_pause, Bool.false_eq_true, if_false]
    nlinarith [mul_le_of_le_one_right (sub_nonneg.mpr hrange) hu1]

/-- Witness for C9: with the configured interval [3, 6] and draw 1/2 the
pause is within bounds, and the failure arm sleeps the default. -/
theorem pause_within_bounds_witness :
    ((3 : ℚ) ≤ add_random_pause 3 6 (1/2) false ∧ add_random_pause 3 6 (1/2) false ≤ 6) ∧
    add_random_pause 3 6 (1/2) true = defaultFallbackPause :=
  ⟨(pause_within_bounds 3 6 (1/2) (by norm_num) (by norm_num) (by norm_num)).1,
   (pause_within_bounds 3 6 (1/2) (by norm_num) (by norm_num) (by norm_num)).2 true rfl⟩

/-- Claim C10: whenever `is_ready` is false, `BrowserService.apply_to_vacancy`
returns the fixed not-ready failure result (success false, browser-not-ready
message), without raising and independently of anything the applicator would
do. -/
theorem not_ready_apply_guard (s : BrowserState) (vacancy_name : String)
    (r1 r2 : ApplicationResult) (h : is_ready s = false) :
    browser_apply_to_vacancy s r1 vacancy_name =
      { vacancy_id := "", vacancy_name := vacancy_name, success := false,
        already_applied := false,
        error_message := some "Браузер не готов или нет авторизации" } ∧
    browser_apply_to_vacancy s r1 vacancy_name = browser_apply_to_vacancy s r2 vacancy_name := by
  constructor <;> simp [browser_apply_to_vacancy, h]

/-- Witness for C10: an initialized but unauthenticated browser state yields
the not-ready failure result for any applicator behaviour. -/
theorem not_ready_apply_guard_witness :
    browser_apply_to_vacancy ⟨true, false, true⟩ sampleOkResult "Python Dev" =
      { vacancy_id := "", vacancy_name := "Python Dev", success := false,
        already_applied := false,
        error_message := some "Браузер не готов или нет авторизации" } ∧
    browser_apply_to_vacancy ⟨true, false, true⟩ sampleOkResult "Python Dev" =
      browser_apply_to_vacancy ⟨true, false, true⟩ sampleFailResult "Python Dev" :=
  not_ready_apply_guard ⟨true, false, true⟩ "Python Dev" sampleOkResult sampleFailResult rfl

end HHBot
